import Mathlib

/-!
Shallow embedding of the Portfolio-Valuation-Agent valuation engine
(src/utils.py, src/comps.py, src/valuation.py, src/portfolio.py, src/alerts.py)
over exact rational arithmetic, together with theorems settling the frozen
claims about the natural-language specification.

Modelling conventions:
* Python floats are modelled as `ℚ`.
* Nullable values are modelled as `Option ℚ`.
* `statistics.stdev` returns a square root, which is irrational in general;
  the summary therefore takes the standard-deviation values as parameters,
  and theorems constrain them by the defining predicate `IsSampleStdev`
  (non-negative, and its square is the N-1 sample variance).
* Functions that can raise are modelled with `Except`/`Option`.
-/

namespace PVA

/-! ## src/utils.py -/

/-- `safe_divide` from src/utils.py: division with zero-denominator
protection, returning `dflt` when the denominator is zero. -/
def safe_divide (numerator denominator dflt : ℚ) : ℚ :=
  if denominator = 0 then dflt else numerator / denominator

/-- `pct_change` from src/utils.py: percentage change as a decimal,
`none` when the old value is 0. -/
def pct_change (old_value new_value : ℚ) : Option ℚ :=
  if old_value = 0 then none else some ((new_value - old_value) / |old_value|)

/-! ## src/comps.py: comp rows and the comp summary -/

/-- One latest-per-ticker comp observation, as consumed by
`compute_comp_summary` (nullable multiple and growth-rate fields). -/
structure CompRow where
  ev_revenue : Option ℚ
  ev_ebitda : Option ℚ
  growth_rate : Option ℚ

/-- The list comprehension `[v for r in rows if v is not None and v > 0]`
used for the `ev_revenue` and `ev_ebitda` columns. -/
def posVals (f : CompRow → Option ℚ) (rows : List CompRow) : List ℚ :=
  (rows.filterMap f).filter (fun x => 0 < x)

/-- The list comprehension for `growth_rate`: non-null values only
(no positivity filter). -/
def growthVals (rows : List CompRow) : List ℚ :=
  rows.filterMap (fun r => r.growth_rate)

/-- Python `min` over a non-empty list (0 for the empty list, which the
source never passes). -/
def pyMin : List ℚ → ℚ
  | [] => 0
  | x :: xs => xs.foldl min x

/-- Python `max` over a non-empty list (0 for the empty list, which the
source never passes). -/
def pyMax : List ℚ → ℚ
  | [] => 0
  | x :: xs => xs.foldl max x

/-- `statistics.mean`. -/
def mean (xs : List ℚ) : ℚ := xs.sum / (xs.length : ℚ)

/-- `statistics.median`: sort, take the middle element for odd length, the
average of the two middle elements for even length. -/
def median (xs : List ℚ) : ℚ :=
  let s := List.insertionSort (fun a b : ℚ => a ≤ b) xs
  let n := xs.length
  if n = 0 then 0
  else if n % 2 = 1 then s.getD (n / 2) 0
  else (s.getD (n / 2 - 1) 0 + s.getD (n / 2) 0) / 2

/-- The N-1 sample variance, i.e. the square of `statistics.stdev`
(meaningful for lists of length at least 2). -/
def sampleVariance (xs : List ℚ) : ℚ :=
  ((xs.map (fun x => (x - mean xs) ^ 2)).sum) / ((xs.length : ℚ) - 1)

/-- Defining property of `statistics.stdev xs`: non-negative and its square
is the N-1 sample variance. -/
def IsSampleStdev (xs : List ℚ) (s : ℚ) : Prop :=
  0 ≤ s ∧ s * s = sampleVariance xs

instance (xs : List ℚ) (s : ℚ) : Decidable (IsSampleStdev xs s) := by
  unfold IsSampleStdev; infer_instance

/-- The summary produced by `compute_comp_summary` in src/comps.py. -/
structure CompSummary where
  comp_count : ℕ
  median_ev_revenue : ℚ
  mean_ev_revenue : ℚ
  high_ev_revenue : ℚ
  low_ev_revenue : ℚ
  std_ev_revenue : ℚ
  median_ev_ebitda : ℚ
  mean_ev_ebitda : ℚ
  high_ev_ebitda : ℚ
  low_ev_ebitda : ℚ
  std_ev_ebitda : ℚ
  median_growth_rate : ℚ

/-- `compute_comp_summary` from src/comps.py. The parameters `sRev` and
`sEbit` stand for the values of `statistics.stdev` on the filtered
EV/Revenue resp. EV/EBITDA lists (irrational in general, hence passed in
and constrained by `IsSampleStdev` in the theorems); they are used exactly
where the source calls `statistics.stdev`, i.e. only when the filtered
list has more than one element. -/
def compute_comp_summary (rows : List CompRow) (sRev sEbit : ℚ) : CompSummary :=
  let ev_revs := posVals (fun r => r.ev_revenue) rows
  let ev_ebits := posVals (fun r => r.ev_ebitda) rows
  let growth_rates := growthVals rows
  { comp_count := rows.length
    median_ev_revenue := if ev_revs.isEmpty then 0 else median ev_revs
    mean_ev_revenue := if ev_revs.isEmpty then 0 else mean ev_revs
    high_ev_revenue := if ev_revs.isEmpty then 0 else pyMax ev_revs
    low_ev_revenue := if ev_revs.isEmpty then 0 else pyMin ev_revs
    std_ev_revenue := if ev_revs.isEmpty then 0
      else if 1 < ev_revs.length then sRev else 0
    median_ev_ebitda := if ev_ebits.isEmpty then 0 else median ev_ebits
    mean_ev_ebitda := if ev_ebits.isEmpty then 0 else mean ev_ebits
    high_ev_ebitda := if ev_ebits.isEmpty then 0 else pyMax ev_ebits
    low_ev_ebitda := if ev_ebits.isEmpty then 0 else pyMin ev_ebits
    std_ev_ebitda := if ev_ebits.isEmpty then 0
      else if 1 < ev_ebits.length then sEbit else 0
    median_growth_rate := if growth_rates.isEmpty then 0 else median growth_rates }

/-! ## src/valuation.py: the three calculators, the blender, the bridge -/

/-- `GROWTH_ADJUSTMENT_FACTOR` from src/config.py. -/
def GROWTH_ADJUSTMENT_FACTOR : ℚ := 1 / 2

/-- `SENSITIVITY_STD_DEVS` from src/config.py. -/
def SENSITIVITY_STD_DEVS : ℚ := 1

/-- `trading_multiple_ev_revenue` from src/valuation.py. -/
def trading_multiple_ev_revenue (revenue_ttm median_ev_revenue : ℚ) : ℚ :=
  if median_ev_revenue ≤ 0 ∨ revenue_ttm ≤ 0 then 0
  else revenue_ttm * median_ev_revenue

/-- `trading_multiple_ev_ebitda` from src/valuation.py. -/
def trading_multiple_ev_ebitda (ebitda median_ev_ebitda : ℚ) : ℚ :=
  if ebitda ≤ 0 ∨ median_ev_ebitda ≤ 0 then 0
  else ebitda * median_ev_ebitda

/-- `growth_adjusted_ev` from src/valuation.py (with the default
`adjustment_factor = GROWTH_ADJUSTMENT_FACTOR` passed explicitly). -/
def growth_adjusted_ev (revenue_ttm median_ev_revenue company_growth_rate
    median_comp_growth_rate adjustment_factor : ℚ) : ℚ :=
  if median_ev_revenue ≤ 0 ∨ revenue_ttm ≤ 0 then 0
  else
    let growth_premium := (company_growth_rate - median_comp_growth_rate) * adjustment_factor
    let adjusted_multiple := median_ev_revenue * (1 + growth_premium)
    revenue_ttm * max adjusted_multiple 0

/-- The weight triple passed to `blended_enterprise_value`
(`ev_revenue` / `ev_ebitda` / `growth_adjusted` keys of the weights dict). -/
structure Weights where
  ev_revenue : ℚ
  ev_ebitda : ℚ
  growth_adjusted : ℚ

/-- `DEFAULT_WEIGHTS` from src/config.py: 0.40 / 0.40 / 0.20. -/
def DEFAULT_WEIGHTS : Weights := ⟨2 / 5, 2 / 5, 1 / 5⟩

/-- `blended_enterprise_value` from src/valuation.py. The sequential
reassignment of the Python locals is mirrored exactly: in the
positive-remaining branch the new `w_rev2` (already rescaled) is what the
source's `w_growth` update reads, and after the redistribution block the
EBITDA weight and contribution are both zero. -/
def blended_enterprise_value (ev_revenue ev_ebitda ev_growth_adjusted : ℚ)
    (w : Weights) : ℚ :=
  let w_rev := w.ev_revenue
  let w_ebit := w.ev_ebitda
  let w_growth := w.growth_adjusted
  if ev_ebitda ≤ 0 ∧ 0 < w_ebit then
    let remaining := w_rev + w_growth
    if 0 < remaining then
      let w_rev2 := w_rev / remaining * (w_rev + w_ebit + w_growth)
      let w_growth2 := w_growth / remaining * (w_rev2 + w_ebit + w_growth)
      w_rev2 * ev_revenue + 0 * 0 + w_growth2 * ev_growth_adjusted
    else
      1 * ev_revenue + 0 * 0 + 0 * ev_growth_adjusted
  else
    w_rev * ev_revenue + w_ebit * ev_ebitda + w_growth * ev_growth_adjusted

/-- Result record of `enterprise_to_equity`. -/
structure EquityBridge where
  equity_value : ℚ
  equity_after_prefs : ℚ
  holdco_equity_value : ℚ

/-- `enterprise_to_equity` from src/valuation.py. -/
def enterprise_to_equity (enterprise_value net_debt preferred_amount
    ownership_pct dilution_pct : ℚ) : EquityBridge :=
  let equity_value := enterprise_value - net_debt
  let equity_after_prefs := max 0 (equity_value - preferred_amount)
  let holdco_equity := equity_after_prefs * ownership_pct * (1 - dilution_pct)
  { equity_value := equity_value
    equity_after_prefs := equity_after_prefs
    holdco_equity_value := holdco_equity }

/-! ## Company records and the sensitivity engine -/

/-- A `portfolio_companies` row, with the fields the valuation pipeline and
the alert engine read (`last_mark_*` are nullable in the schema). -/
structure Company where
  id : ℕ
  name : String
  revenue_ttm : ℚ
  revenue_run_rate : ℚ
  ebitda : ℚ
  growth_rate : ℚ
  net_debt : ℚ
  preferred_amount : ℚ
  ownership_pct : ℚ
  dilution_pct : ℚ
  last_mark_ev : Option ℚ
  last_mark_equity : Option ℚ

/-- The scenario-adjusted multiple in `sensitivity_analysis`:
`median + multiplier * std`, floored at 0. -/
def adj_multiple (median std multiplier : ℚ) : ℚ :=
  max (median + multiplier * std) 0

/-- The blended enterprise value computed by one scenario iteration of
`sensitivity_analysis` (src/valuation.py lines 180-192): both medians
perturbed by `multiplier * std` and floored at 0, then the three
calculators and the blender, the growth-adjusted method using the
perturbed revenue median and the unperturbed comp growth median. -/
def scenarioEV (c : Company) (cs : CompSummary) (w : Weights) (multiplier : ℚ) : ℚ :=
  let adj_ev_rev := adj_multiple cs.median_ev_revenue cs.std_ev_revenue multiplier
  let adj_ev_ebit := adj_multiple cs.median_ev_ebitda cs.std_ev_ebitda multiplier
  let ev_rev := trading_multiple_ev_revenue c.revenue_ttm adj_ev_rev
  let ev_ebit := trading_multiple_ev_ebitda c.ebitda adj_ev_ebit
  let ev_growth := growth_adjusted_ev c.revenue_ttm adj_ev_rev c.growth_rate
    cs.median_growth_rate GROWTH_ADJUSTMENT_FACTOR
  blended_enterprise_value ev_rev ev_ebit ev_growth w

/-- The scenario enterprise values and range returned by
`sensitivity_analysis`. -/
structure SensitivityResult where
  base : ℚ
  upside : ℚ
  downside : ℚ
  ev_range : ℚ
  pct_range : ℚ

/-- `sensitivity_analysis` from src/valuation.py, for a resolved company:
comp summary from the latest comp rows, the three scenarios
base/upside/downside at multipliers 0 / +std_devs / -std_devs,
`ev_range = upside - downside`, `pct_range = ev_range / base` when the
base EV is positive, else 0. -/
def sensitivity_analysis (c : Company) (rows : List CompRow) (sRev sEbit : ℚ)
    (std_devs : ℚ) (w : Weights) : SensitivityResult :=
  let cs := compute_comp_summary rows sRev sEbit
  let base := scenarioEV c cs w 0
  let upside := scenarioEV c cs w std_devs
  let downside := scenarioEV c cs w (-std_devs)
  let ev_range := upside - downside
  { base := base
    upside := upside
    downside := downside
    ev_range := ev_range
    pct_range := if 0 < base then ev_range / base else 0 }

/-! ## src/portfolio.py: NAV and concentration -/

/-- The fields of a latest persisted valuation snapshot read by the
portfolio aggregator. -/
structure LatestVal where
  enterprise_value : ℚ
  holdco_equity_value : ℚ

/-- A persisted HoldCo snapshot, as read back for the change-vs-prior
computation (only `nav` is read). -/
structure HoldcoSnapshot where
  nav : ℚ

/-- Result record of `calculate_holdco_nav`. -/
structure NavResult where
  total_equity_value : ℚ
  holdco_cash : ℚ
  holdco_debt : ℚ
  nav : ℚ
  nav_per_share : ℚ
  shares_outstanding : ℚ
  change_vs_prior_pct : Option ℚ

/-- The per-company accumulation in `calculate_holdco_nav`: the latest
persisted `holdco_equity_value`, or 0.0 for a company with no valuation. -/
def totalEquity (latest : List (Option LatestVal)) : ℚ :=
  (latest.map (fun l => match l with
    | some v => v.holdco_equity_value
    | none => 0)).sum

/-- `calculate_holdco_nav` from src/portfolio.py, with the storage reads
supplied as arguments: `latest` is the latest persisted valuation (if any)
of each tracked company, `prior` the most recent previously stored HoldCo
snapshot. -/
def calculate_holdco_nav (latest : List (Option LatestVal))
    (holdco_cash holdco_debt shares_outstanding : ℚ)
    (prior : Option HoldcoSnapshot) : NavResult :=
  let total_equity := totalEquity latest
  let nav := total_equity + holdco_cash - holdco_debt
  let nav_per_share := safe_divide nav shares_outstanding 0
  let change_vs_prior := match prior with
    | none => none
    | some p => pct_change p.nav nav
  { total_equity_value := total_equity
    holdco_cash := holdco_cash
    holdco_debt := holdco_debt
    nav := nav
    nav_per_share := nav_per_share
    shares_outstanding := shares_outstanding
    change_vs_prior_pct := change_vs_prior }

/-- The HoldCo snapshot persisted from a `calculate_holdco_nav` result
(the field the next call reads back). -/
def snapshotOf (r : NavResult) : HoldcoSnapshot := ⟨r.nav⟩

/-- One entry of the `get_concentration_analysis` result list. -/
structure ConcEntry where
  company_id : ℕ
  holdco_equity_value : ℚ
  weight_pct : ℚ

/-- Descending order on concentration entries: `a` before `b` when
`b.weight_pct ≤ a.weight_pct` (Python `sort(key=weight_pct, reverse=True)`). -/
def concDesc (a b : ConcEntry) : Prop := b.weight_pct ≤ a.weight_pct

instance : DecidableRel concDesc := fun a b =>
  inferInstanceAs (Decidable (b.weight_pct ≤ a.weight_pct))

instance : IsTotal ConcEntry concDesc :=
  ⟨fun a b => le_total b.weight_pct a.weight_pct⟩

instance : IsTrans ConcEntry concDesc :=
  ⟨fun _ _ _ h h2 => le_trans h2 h⟩

/-- `get_concentration_analysis` from src/portfolio.py, with the storage
read supplied as an argument: for each tracked company its id and the
latest persisted `holdco_equity_value` (if any). Builds entries with the
equity (0 when no valuation), totals them, fills
`weight_pct = safe_divide(equity, total)` when the total is positive else
0.0, and returns the list sorted descending by `weight_pct`. -/
def get_concentration_analysis (latest : List (ℕ × Option ℚ)) : List ConcEntry :=
  let entries := latest.map (fun p => ConcEntry.mk p.1 (p.2.getD 0) 0)
  let total := (entries.map (fun e => e.holdco_equity_value)).sum
  let entries2 := entries.map (fun e =>
    { e with weight_pct := if 0 < total then safe_divide e.holdco_equity_value total 0 else 0 })
  List.insertionSort concDesc entries2

/-! ## src/alerts.py: underperformance check -/

/-- `check_underperformance` from src/alerts.py, for a resolved company:
`true` exactly when an alert record is returned. -/
def check_underperformance (c : Company) (threshold_pct : ℚ) : Bool :=
  let expected_revenue := c.revenue_ttm * (1 + c.growth_rate)
  if 0 < expected_revenue ∧ 0 < c.revenue_run_rate then
    match pct_change expected_revenue c.revenue_run_rate with
    | some miss => decide (miss < -threshold_pct)
    | none => false
  else false

/-! ## The database view and the batch valuation pipeline -/

/-- The slice of the SQLite database the valuation pipeline reads:
the company table (in the order `get_all_companies` returns it) and the
latest-per-ticker comp rows, keyed by portfolio company id. Valuation
snapshots are write-only for this pipeline and are not modelled;
`update_company`'s last-mark writes are (they are read back via
`get_company`). -/
structure DB where
  companies : List Company
  compRows : List (ℕ × CompRow)

/-- `get_company`: first company row with the given id, or none. -/
def get_company (db : DB) (cid : ℕ) : Option Company :=
  db.companies.find? (fun c => c.id == cid)

/-- `get_latest_comp_data`: the latest comp rows of the given company. -/
def get_latest_comp_data (db : DB) (cid : ℕ) : List CompRow :=
  (db.compRows.filter (fun p => p.1 == cid)).map (fun p => p.2)

/-- The result dict assembled by `run_valuation`. -/
structure ValResult where
  company_id : ℕ
  company_name : String
  ev_revenue_method : ℚ
  ev_ebitda_method : ℚ
  ev_growth_adjusted_method : ℚ
  enterprise_value : ℚ
  equity_value : ℚ
  equity_after_prefs : ℚ
  holdco_equity_value : ℚ
  median_ev_revenue : ℚ
  median_ev_ebitda : ℚ
  comp_count : ℕ
  change_ev_pct : Option ℚ
  change_equity_pct : Option ℚ

/-- The body of `run_valuation` after the company resolved (src/valuation.py
lines 91-141): comp summary, the three calculators, blend, bridge, and the
percentage changes vs the stored last mark (Python `x or 0` on the nullable
last-mark fields). -/
def valuation_core (c : Company) (rows : List CompRow) (sRev sEbit : ℚ)
    (w : Weights) : ValResult :=
  let cs := compute_comp_summary rows sRev sEbit
  let ev_rev := trading_multiple_ev_revenue c.revenue_ttm cs.median_ev_revenue
  let ev_ebit := trading_multiple_ev_ebitda c.ebitda cs.median_ev_ebitda
  let ev_growth := growth_adjusted_ev c.revenue_ttm cs.median_ev_revenue
    c.growth_rate cs.median_growth_rate GROWTH_ADJUSTMENT_FACTOR
  let blended_ev := blended_enterprise_value ev_rev ev_ebit ev_growth w
  let equity_result := enterprise_to_equity blended_ev c.net_debt
    c.preferred_amount c.ownership_pct c.dilution_pct
  { company_id := c.id
    company_name := c.name
    ev_revenue_method := ev_rev
    ev_ebitda_method := ev_ebit
    ev_growth_adjusted_method := ev_growth
    enterprise_value := blended_ev
    equity_value := equity_result.equity_value
    equity_after_prefs := equity_result.equity_after_prefs
    holdco_equity_value := equity_result.holdco_equity_value
    median_ev_revenue := cs.median_ev_revenue
    median_ev_ebitda := cs.median_ev_ebitda
    comp_count := cs.comp_count
    change_ev_pct := pct_change (c.last_mark_ev.getD 0) blended_ev
    change_equity_pct := pct_change (c.last_mark_equity.getD 0) equity_result.holdco_equity_value }

/-- `run_valuation` from src/valuation.py: `ValueError` when the company id
does not resolve, otherwise the assembled result. -/
def run_valuation (db : DB) (cid : ℕ) (sRev sEbit : ℚ) (w : Weights) :
    Except String ValResult :=
  match get_company db cid with
  | none => Except.error ("Company " ++ toString cid ++ " not found")
  | some c => Except.ok (valuation_core c (get_latest_comp_data db cid) sRev sEbit w)

/-- `update_company`'s last-mark write performed by `run_valuation` when
persisting: overwrite `last_mark_ev` / `last_mark_equity` of the rows with
the given id. -/
def update_last_mark (db : DB) (cid : ℕ) (ev eq : ℚ) : DB :=
  { db with companies := db.companies.map (fun c =>
      if c.id == cid then { c with last_mark_ev := some ev, last_mark_equity := some eq }
      else c) }

/-- One element of the `run_all_valuations` result list: a valuation result,
or the error marker dict `{company_id, company_name, error}`. -/
inductive BatchEntry where
  | ok (r : ValResult)
  | err (company_id : ℕ) (company_name : String) (message : String)

/-- The entry `run_all_valuations` records for one company against a given
database state: the body of the per-company try/except. -/
def batchEntryOf (db : DB) (sRev sEbit : ℚ) (w : Weights) (c : Company) : BatchEntry :=
  match run_valuation db c.id sRev sEbit w with
  | Except.ok r => BatchEntry.ok r
  | Except.error e => BatchEntry.err c.id c.name e

/-- The loop of `run_all_valuations` with snapshot persistence: each
successful valuation updates that company's last-mark fields before the
next company is processed. -/
def run_all_valuations_aux (sRev sEbit : ℚ) (w : Weights) :
    DB → List Company → List BatchEntry
  | _, [] => []
  | db, c :: rest =>
    match run_valuation db c.id sRev sEbit w with
    | Except.ok r =>
      BatchEntry.ok r ::
        run_all_valuations_aux sRev sEbit w
          (update_last_mark db c.id r.enterprise_value r.holdco_equity_value) rest
    | Except.error e =>
      BatchEntry.err c.id c.name e :: run_all_valuations_aux sRev sEbit w db rest

/-- `run_all_valuations` from src/valuation.py: iterate over the company
list fetched up front, collecting one entry per company and never letting a
single company's failure abort the batch. -/
def run_all_valuations (db : DB) (sRev sEbit : ℚ) (w : Weights) : List BatchEntry :=
  run_all_valuations_aux sRev sEbit w db db.companies

/-! ## Effective redistribution weights and concrete example data -/

/-- The effective revenue weight the redistribution branch of
`blended_enterprise_value` applies (positive-remaining case). -/
def wRev2 (w : Weights) : ℚ :=
  w.ev_revenue / (w.ev_revenue + w.growth_adjusted) *
    (w.ev_revenue + w.ev_ebitda + w.growth_adjusted)

/-- The effective growth weight the redistribution branch of
`blended_enterprise_value` applies (positive-remaining case): the source
reads the already-rescaled revenue weight here. -/
def wGrowth2 (w : Weights) : ℚ :=
  w.growth_adjusted / (w.ev_revenue + w.growth_adjusted) *
    (wRev2 w + w.ev_ebitda + w.growth_adjusted)

/-- A concrete portfolio company: revenue 100, EBITDA 10, growth 0, fully
owned, no debt, prefs or dilution. -/
def cexCompany : Company :=
  { id := 1, name := "Cex", revenue_ttm := 100, revenue_run_rate := 0,
    ebitda := 10, growth_rate := 0, net_debt := 0, preferred_amount := 0,
    ownership_pct := 1, dilution_pct := 0, last_mark_ev := none,
    last_mark_equity := none }

/-- Four latest comp rows whose qualifying EV/EBITDA multiples are
1, 1, 1, 5 (median 1, sample standard deviation 2) and whose EV/Revenue
multiples are all 10 (median 10, standard deviation 0). -/
def cexRows : List CompRow :=
  [⟨some 10, some 1, some 0⟩, ⟨some 10, some 1, some 0⟩,
   ⟨some 10, some 1, some 0⟩, ⟨some 10, some 5, some 0⟩]

/-- Three latest comp rows with qualifying EV/Revenue multiples 10, 12, 14
(median 12, sample standard deviation 2), EV/EBITDA multiples 4, 4
(median 4, standard deviation 0) and growth rates 0, 1. -/
def flatRows : List CompRow :=
  [⟨some 10, some 4, some 0⟩, ⟨some 12, some 4, none⟩,
   ⟨some 14, none, some 1⟩]

/-- A second concrete company, with negative EBITDA. -/
def cexCompanyNegEbitda : Company :=
  { id := 2, name := "NegEbitda", revenue_ttm := 50, revenue_run_rate := 0,
    ebitda := -5, growth_rate := 0, net_debt := 0, preferred_amount := 0,
    ownership_pct := 1, dilution_pct := 0, last_mark_ev := none,
    last_mark_equity := none }

/-- A concrete two-company database with one latest comp row each. -/
def sampleDB : DB :=
  { companies := [cexCompany, cexCompanyNegEbitda],
    compRows := [(1, ⟨some 10, some 4, some 0⟩), (2, ⟨some 8, some 6, none⟩)] }

/-! ## Helper lemmas about the calculators -/

theorem tmr_nonneg (r m : ℚ) : 0 ≤ trading_multiple_ev_revenue r m := by
  unfold trading_multiple_ev_revenue
  split
  · exact le_refl 0
  · rename_i h
    push_neg at h
    exact le_of_lt (mul_pos h.2 h.1)

theorem tme_nonneg (e m : ℚ) : 0 ≤ trading_multiple_ev_ebitda e m := by
  unfold trading_multiple_ev_ebitda
  split
  · exact le_refl 0
  · rename_i h
    push_neg at h
    exact le_of_lt (mul_pos h.1 h.2)

theorem ga_nonneg (r m g mg af : ℚ) : 0 ≤ growth_adjusted_ev r m g mg af := by
  unfold growth_adjusted_ev
  split
  · exact le_refl 0
  · rename_i h
    push_neg at h
    exact mul_nonneg (le_of_lt h.2) (le_max_right _ 0)

theorem tmr_mono (r : ℚ) {m1 m2 : ℚ} (h : m1 ≤ m2) :
    trading_multiple_ev_revenue r m1 ≤ trading_multiple_ev_revenue r m2 := by
  by_cases hr : r ≤ 0
  · simp [trading_multiple_ev_revenue, hr]
  · push_neg at hr
    by_cases h1 : m1 ≤ 0
    · rw [trading_multiple_ev_revenue, if_pos (Or.inl h1)]
      exact tmr_nonneg r m2
    · push_neg at h1
      have h2 : 0 < m2 := lt_of_lt_of_le h1 h
      rw [trading_multiple_ev_revenue, if_neg (by push_neg; exact ⟨h1, hr⟩),
        trading_multiple_ev_revenue, if_neg (by push_neg; exact ⟨h2, hr⟩)]
      exact mul_le_mul_of_nonneg_left h (le_of_lt hr)

theorem tme_mono (e : ℚ) {m1 m2 : ℚ} (h : m1 ≤ m2) :
    trading_multiple_ev_ebitda e m1 ≤ trading_multiple_ev_ebitda e m2 := by
  by_cases he : e ≤ 0
  · simp [trading_multiple_ev_ebitda, he]
  · push_neg at he
    by_cases h1 : m1 ≤ 0
    · rw [trading_multiple_ev_ebitda, if_pos (Or.inr h1)]
      exact tme_nonneg e m2
    · push_neg at h1
      have h2 : 0 < m2 := lt_of_lt_of_le h1 h
      rw [trading_multiple_ev_ebitda, if_neg (by push_neg; exact ⟨he, h1⟩),
        trading_multiple_ev_ebitda, if_neg (by push_neg; exact ⟨he, h2⟩)]
      exact mul_le_mul_of_nonneg_left h (le_of_lt he)

theorem tme_of_ebitda_nonpos {e : ℚ} (he : e ≤ 0) (m : ℚ) :
    trading_multiple_ev_ebitda e m = 0 := by
  rw [trading_multiple_ev_ebitda, if_pos (Or.inl he)]

theorem tme_pos {e m : ℚ} (he : 0 < e) (hm : 0 < m) :
    0 < trading_multiple_ev_ebitda e m := by
  rw [trading_multiple_ev_ebitda, if_neg (by push_neg; exact ⟨he, hm⟩)]
  exact mul_pos he hm

theorem ga_mono (r : ℚ) {m1 m2 : ℚ} (g mg af : ℚ) (h : m1 ≤ m2) :
    growth_adjusted_ev r m1 g mg af ≤ growth_adjusted_ev r m2 g mg af := by
  by_cases hr : r ≤ 0
  · simp [growth_adjusted_ev, hr]
  · push_neg at hr
    by_cases h1 : m1 ≤ 0
    · rw [growth_adjusted_ev, if_pos (Or.inl h1)]
      exact ga_nonneg r m2 g mg af
    · push_neg at h1
      have h2 : 0 < m2 := lt_of_lt_of_le h1 h
      rw [growth_adjusted_ev, if_neg (by push_neg; exact ⟨h1, hr⟩),
        growth_adjusted_ev, if_neg (by push_neg; exact ⟨h2, hr⟩)]
      dsimp only
      refine mul_le_mul_of_nonneg_left ?_ (le_of_lt hr)
      rcases le_or_lt 0 (1 + (g - mg) * af) with hc | hc
      · exact max_le_max (by nlinarith) (le_refl 0)
      · have hm1 : m1 * (1 + (g - mg) * af) ≤ 0 := by nlinarith
        have hm2 : m2 * (1 + (g - mg) * af) ≤ 0 := by nlinarith
        rw [max_eq_right hm1, max_eq_right hm2]

/-- Defining equation of the blender with the lets substituted: the
redistribution branch applies the effective weights `wRev2` / `wGrowth2`. -/
theorem blended_eq (r e g : ℚ) (w : Weights) :
    blended_enterprise_value r e g w =
      if e ≤ 0 ∧ 0 < w.ev_ebitda then
        if 0 < w.ev_revenue + w.growth_adjusted then
          wRev2 w * r + wGrowth2 w * g
        else r
      else w.ev_revenue * r + w.ev_ebitda * e + w.growth_adjusted * g := by
  unfold blended_enterprise_value
  dsimp only
  split_ifs with h1 h2
  · simp only [wGrowth2, wRev2]
    ring
  · ring
  · ring

theorem wRev2_nonneg {w : Weights} (hw1 : 0 ≤ w.ev_revenue)
    (hw2 : 0 ≤ w.ev_ebitda) (_hw3 : 0 ≤ w.growth_adjusted)
    (hrem : 0 < w.ev_revenue + w.growth_adjusted) : 0 ≤ wRev2 w := by
  unfold wRev2
  exact mul_nonneg (div_nonneg hw1 (le_of_lt hrem)) (by linarith)

theorem wGrowth2_nonneg {w : Weights} (hw1 : 0 ≤ w.ev_revenue)
    (hw2 : 0 ≤ w.ev_ebitda) (hw3 : 0 ≤ w.growth_adjusted)
    (hrem : 0 < w.ev_revenue + w.growth_adjusted) : 0 ≤ wGrowth2 w := by
  have h := wRev2_nonneg hw1 hw2 hw3 hrem
  unfold wGrowth2
  exact mul_nonneg (div_nonneg hw3 (le_of_lt hrem)) (by linarith)

/-- Monotonicity of the blend in the revenue and growth inputs when the
EBITDA input is 0 on both sides. -/
theorem blended_mono_ebitda_zero {w : Weights} (hw1 : 0 ≤ w.ev_revenue)
    (hw2 : 0 ≤ w.ev_ebitda) (hw3 : 0 ≤ w.growth_adjusted)
    {r1 r2 g1 g2 : ℚ} (hr : r1 ≤ r2) (hg : g1 ≤ g2) :
    blended_enterprise_value r1 0 g1 w ≤ blended_enterprise_value r2 0 g2 w := by
  rw [blended_eq, blended_eq]
  by_cases hb : (0 : ℚ) ≤ 0 ∧ 0 < w.ev_ebitda
  · rw [if_pos hb, if_pos hb]
    by_cases hrem : 0 < w.ev_revenue + w.growth_adjusted
    · rw [if_pos hrem, if_pos hrem]
      have hA := wRev2_nonneg hw1 hw2 hw3 hrem
      have hB := wGrowth2_nonneg hw1 hw2 hw3 hrem
      exact add_le_add (mul_le_mul_of_nonneg_left hr hA)
        (mul_le_mul_of_nonneg_left hg hB)
    · rw [if_neg hrem, if_neg hrem]
      exact hr
  · rw [if_neg hb, if_neg hb]
    have := mul_le_mul_of_nonneg_left hr hw1
    have := mul_le_mul_of_nonneg_left hg hw3
    linarith

/-- Monotonicity of the blend when the EBITDA input stays positive on both
sides. -/
theorem blended_mono_ebitda_pos {w : Weights} (hw1 : 0 ≤ w.ev_revenue)
    (hw2 : 0 ≤ w.ev_ebitda) (hw3 : 0 ≤ w.growth_adjusted)
    {r1 r2 e1 e2 g1 g2 : ℚ} (he1 : 0 < e1) (hr : r1 ≤ r2) (he : e1 ≤ e2)
    (hg : g1 ≤ g2) :
    blended_enterprise_value r1 e1 g1 w ≤ blended_enterprise_value r2 e2 g2 w := by
  have he2 : 0 < e2 := lt_of_lt_of_le he1 he
  rw [blended_eq, blended_eq,
    if_neg (by rintro ⟨h1, _⟩; exact absurd he1 (not_lt.mpr h1)),
    if_neg (by rintro ⟨h1, _⟩; exact absurd he2 (not_lt.mpr h1))]
  have := mul_le_mul_of_nonneg_left hr hw1
  have := mul_le_mul_of_nonneg_left he hw2
  have := mul_le_mul_of_nonneg_left hg hw3
  linarith


/-! ## Claim theorems: the three calculators (C6, C10) -/

/-- C6: trading_multiple_ev_revenue(r, m) and trading_multiple_ev_ebitda(r, m)
each return r * m when both arguments are positive and 0.0 when either
argument is non-positive; growth_adjusted_ev returns
revenue * max(median * (1 + (g - mg) * af), 0) when revenue and median are
positive (the default adjustment factor being 0.5), and 0.0 when revenue or
median is non-positive. -/
theorem c6_calculator_formulas :
    (∀ r m : ℚ, (0 < r → 0 < m → trading_multiple_ev_revenue r m = r * m) ∧
      (r ≤ 0 ∨ m ≤ 0 → trading_multiple_ev_revenue r m = 0)) ∧
    (∀ e m : ℚ, (0 < e → 0 < m → trading_multiple_ev_ebitda e m = e * m) ∧
      (e ≤ 0 ∨ m ≤ 0 → trading_multiple_ev_ebitda e m = 0)) ∧
    GROWTH_ADJUSTMENT_FACTOR = 1 / 2 ∧
    (∀ rev med g mg af : ℚ,
      (0 < rev → 0 < med →
        growth_adjusted_ev rev med g mg af = rev * max (med * (1 + (g - mg) * af)) 0) ∧
      (rev ≤ 0 ∨ med ≤ 0 → growth_adjusted_ev rev med g mg af = 0)) := by
  refine ⟨fun r m => ⟨fun hr hm => ?_, fun h => ?_⟩,
    fun e m => ⟨fun he hm => ?_, fun h => ?_⟩, rfl,
    fun rev med g mg af => ⟨fun hr hm => ?_, fun h => ?_⟩⟩
  · rw [trading_multiple_ev_revenue, if_neg (by push_neg; exact ⟨hm, hr⟩)]
  · rw [trading_multiple_ev_revenue, if_pos (by tauto)]
  · rw [trading_multiple_ev_ebitda, if_neg (by push_neg; exact ⟨he, hm⟩)]
  · rw [trading_multiple_ev_ebitda, if_pos (by tauto)]
  · rw [growth_adjusted_ev, if_neg (by push_neg; exact ⟨hm, hr⟩)]
  · rw [growth_adjusted_ev, if_pos (by tauto)]

/-- Witness for C6 at the spec's concrete inputs: 50M revenue at a 10.0
multiple is 500M; both degenerate directions return 0; the growth-adjusted
premium example gives 525M. -/
theorem c6_calculator_formulas_witness :
    trading_multiple_ev_revenue 50000000 10 = 50000000 * 10 ∧
    trading_multiple_ev_revenue 0 10 = 0 ∧
    trading_multiple_ev_ebitda 8000000 20 = 8000000 * 20 ∧
    trading_multiple_ev_ebitda (-5000000) 20 = 0 ∧
    growth_adjusted_ev 50000000 10 (3/10) (1/5) (1/2) =
      50000000 * max (10 * (1 + (3/10 - 1/5) * (1/2))) 0 := by
  refine ⟨(c6_calculator_formulas.1 50000000 10).1 (by norm_num) (by norm_num),
    (c6_calculator_formulas.1 0 10).2 (Or.inl (by norm_num)),
    (c6_calculator_formulas.2.1 8000000 20).1 (by norm_num) (by norm_num),
    (c6_calculator_formulas.2.1 (-5000000) 20).2 (Or.inl (by norm_num)),
    (c6_calculator_formulas.2.2.2 50000000 10 (3/10) (1/5) (1/2)).1
      (by norm_num) (by norm_num)⟩

/-- C10: all three valuation calculators are total and non-negative on every
rational input. -/
theorem c10_calculators_nonneg :
    ∀ r m e me g mg af : ℚ,
      0 ≤ trading_multiple_ev_revenue r m ∧
      0 ≤ trading_multiple_ev_ebitda e me ∧
      0 ≤ growth_adjusted_ev r m g mg af :=
  fun r m e me g mg af => ⟨tmr_nonneg r m, tme_nonneg e me, ga_nonneg r m g mg af⟩

/-! ## Claim theorems: equity bridge (C3) -/

/-- C3: enterprise_to_equity computes, in order, equity_value = EV - net_debt,
equity_after_prefs = max(0, equity_value - preferred_amount),
holdco_equity_value = equity_after_prefs * ownership_pct * (1 - dilution_pct);
equity_after_prefs and holdco_equity_value are non-negative whenever
preferred_amount is non-negative and ownership_pct, dilution_pct lie in
[0, 1]; and the spec's concrete example evaluates to
497,000,000 / 487,000,000 / 92,530,000. -/
theorem c3_enterprise_to_equity_spec :
    (∀ ev nd p own dil : ℚ, 0 ≤ p → 0 ≤ own → own ≤ 1 → 0 ≤ dil → dil ≤ 1 →
      (enterprise_to_equity ev nd p own dil).equity_value = ev - nd ∧
      (enterprise_to_equity ev nd p own dil).equity_after_prefs =
        max 0 (ev - nd - p) ∧
      (enterprise_to_equity ev nd p own dil).holdco_equity_value =
        max 0 (ev - nd - p) * own * (1 - dil) ∧
      0 ≤ (enterprise_to_equity ev nd p own dil).equity_after_prefs ∧
      0 ≤ (enterprise_to_equity ev nd p own dil).holdco_equity_value) ∧
    enterprise_to_equity 500000000 3000000 10000000 (1/5) (1/20) =
      ⟨497000000, 487000000, 92530000⟩ := by
  constructor
  · intro ev nd p own dil _hp hown1 _hown2 _hdil1 hdil2
    refine ⟨rfl, rfl, rfl, le_max_left 0 _, ?_⟩
    exact mul_nonneg (mul_nonneg (le_max_left 0 _) hown1) (by linarith)
  · unfold enterprise_to_equity
    norm_num

/-- Witness for C3: the universally quantified part applied at the concrete
example inputs. -/
theorem c3_enterprise_to_equity_spec_witness :
    (enterprise_to_equity 500000000 3000000 10000000 (1/5) (1/20)).equity_value =
      500000000 - 3000000 ∧
    0 ≤ (enterprise_to_equity 500000000 3000000 10000000 (1/5) (1/20)).holdco_equity_value := by
  have h := c3_enterprise_to_equity_spec.1 500000000 3000000 10000000 (1/5) (1/20)
    (by norm_num) (by norm_num) (by norm_num) (by norm_num) (by norm_num)
  exact ⟨h.1, h.2.2.2.2⟩

/-! ## Claim theorem: the weight-redistribution slip (C1) -/

/-- C1 (code bug): evaluating blended_enterprise_value in the redistribution
branch with the default weights (which sum to 1): the effective revenue
weight is 2/3 as the claim's formula states, but the effective growth weight
is 19/45 instead of the claimed 1/5 / (3/5) * 1 = 1/3 (the source reads the
already-rescaled revenue weight when rescaling the growth weight), the
effective weights sum to 49/45 instead of 1, and on the spec's example
inputs (500M, 0, 525M) the blend is 555,000,000 rather than the
2/3 * 500M + 1/3 * 525M = 508,333,333.33 the claim's formula requires. -/
theorem c1_blended_redistribution_bug_eval :
    DEFAULT_WEIGHTS.ev_revenue + DEFAULT_WEIGHTS.ev_ebitda +
      DEFAULT_WEIGHTS.growth_adjusted = 1 ∧
    blended_enterprise_value 1 0 0 DEFAULT_WEIGHTS = 2 / 3 ∧
    blended_enterprise_value 0 0 1 DEFAULT_WEIGHTS = 19 / 45 ∧
    (19 : ℚ) / 45 ≠ 1 / 3 ∧
    blended_enterprise_value 1 0 1 DEFAULT_WEIGHTS = 49 / 45 ∧
    (49 : ℚ) / 45 ≠ 1 ∧
    blended_enterprise_value 500000000 0 525000000 DEFAULT_WEIGHTS = 555000000 ∧
    (555000000 : ℚ) ≠ 2 / 3 * 500000000 + 1 / 3 * 525000000 := by
  refine ⟨by norm_num [DEFAULT_WEIGHTS], ?_, ?_, by norm_num, ?_, by norm_num, ?_, by norm_num⟩ <;>
    norm_num [blended_enterprise_value, DEFAULT_WEIGHTS]

/-! ## Claim theorem: underperformance alert (C7) -/

/-- C7: check_underperformance fires exactly when
expected_revenue = revenue_ttm * (1 + growth_rate) is positive, the run-rate
is positive, and the percentage change from expected to run-rate is below
-threshold; for a non-negative threshold, outperformance (run-rate at or
above expectation) never fires; and the spec's two concrete examples
(95M run-rate vs 120M expected fires at threshold 0.10, 130M does not). -/
theorem c7_underperformance_spec :
    (∀ (c : Company) (th : ℚ),
      (check_underperformance c th = true ↔
        0 < c.revenue_ttm * (1 + c.growth_rate) ∧ 0 < c.revenue_run_rate ∧
        (c.revenue_run_rate - c.revenue_ttm * (1 + c.growth_rate)) /
          (c.revenue_ttm * (1 + c.growth_rate)) < -th) ∧
      (0 ≤ th → c.revenue_ttm * (1 + c.growth_rate) ≤ c.revenue_run_rate →
        check_underperformance c th = false)) ∧
    check_underperformance
      { id := 10, name := "A", revenue_ttm := 100000000, revenue_run_rate := 95000000,
        ebitda := 0, growth_rate := 1/5, net_debt := 0, preferred_amount := 0,
        ownership_pct := 0, dilution_pct := 0, last_mark_ev := none,
        last_mark_equity := none } (1/10) = true ∧
    check_underperformance
      { id := 10, name := "A", revenue_ttm := 100000000, revenue_run_rate := 130000000,
        ebitda := 0, growth_rate := 1/5, net_debt := 0, preferred_amount := 0,
        ownership_pct := 0, dilution_pct := 0, last_mark_ev := none,
        last_mark_equity := none } (1/10) = false := by
  have key : ∀ (c : Company) (th : ℚ),
      check_underperformance c th = true ↔
        0 < c.revenue_ttm * (1 + c.growth_rate) ∧ 0 < c.revenue_run_rate ∧
        (c.revenue_run_rate - c.revenue_ttm * (1 + c.growth_rate)) /
          (c.revenue_ttm * (1 + c.growth_rate)) < -th := by
    intro c th
    unfold check_underperformance pct_change
    dsimp only
    by_cases hcond : 0 < c.revenue_ttm * (1 + c.growth_rate) ∧ 0 < c.revenue_run_rate
    · rw [if_pos hcond, if_neg (ne_of_gt hcond.1), abs_of_pos hcond.1]
      simp only [decide_eq_true_eq]
      constructor
      · intro h
        exact ⟨hcond.1, hcond.2, h⟩
      · intro h
        exact h.2.2
    · rw [if_neg hcond]
      simp only [Bool.false_eq_true, false_iff]
      intro h
      exact hcond ⟨h.1, h.2.1⟩
  refine ⟨fun c th => ⟨key c th, fun hth hout => ?_⟩, ?_, ?_⟩
  · rw [← Bool.not_eq_true, key c th]
    rintro ⟨hexp, _hrun, hmiss⟩
    have hq : 0 ≤ (c.revenue_run_rate - c.revenue_ttm * (1 + c.growth_rate)) /
        (c.revenue_ttm * (1 + c.growth_rate)) :=
      div_nonneg (by linarith) (le_of_lt hexp)
    linarith
  · rw [key]
    norm_num
  · rw [← Bool.not_eq_true, key]
    norm_num

/-- Witness for C7: the outperformance clause applied at the spec's second
example (threshold 0.10, run-rate 130M above the 120M expectation). -/
theorem c7_underperformance_spec_witness :
    check_underperformance
      { id := 11, name := "B", revenue_ttm := 100000000, revenue_run_rate := 130000000,
        ebitda := 0, growth_rate := 1/5, net_debt := 0, preferred_amount := 0,
        ownership_pct := 0, dilution_pct := 0, last_mark_ev := none,
        last_mark_equity := none } (1/10) = false :=
  (c7_underperformance_spec.1 _ (1/10)).2 (by norm_num) (by norm_num)



/-! ## Claim theorems: sensitivity analysis (C2) -/

theorem summary_std_rev_nonneg (rows : List CompRow) {sRev : ℚ} (sEbit : ℚ)
    (h : 0 ≤ sRev) : 0 ≤ (compute_comp_summary rows sRev sEbit).std_ev_revenue := by
  unfold compute_comp_summary
  dsimp only
  split_ifs <;> first | exact le_refl 0 | exact h

theorem summary_std_ebit_nonneg (rows : List CompRow) (sRev : ℚ) {sEbit : ℚ}
    (h : 0 ≤ sEbit) : 0 ≤ (compute_comp_summary rows sRev sEbit).std_ev_ebitda := by
  unfold compute_comp_summary
  dsimp only
  split_ifs <;> first | exact le_refl 0 | exact h

/-- One sensitivity scenario's blended EV is monotone in the multiplier, as
long as the EBITDA method does not flip between usable and unusable across
the multipliers considered: either the company EBITDA is non-positive (the
method contributes 0 in every scenario) or the downside-perturbed EBITDA
median stays positive. -/
theorem scenarioEV_mono (c : Company) (cs : CompSummary) (w : Weights)
    (hw1 : 0 ≤ w.ev_revenue) (hw2 : 0 ≤ w.ev_ebitda) (hw3 : 0 ≤ w.growth_adjusted)
    (hsr : 0 ≤ cs.std_ev_revenue) (hse : 0 ≤ cs.std_ev_ebitda)
    {s u1 u2 : ℚ} (hm1 : -s ≤ u1) (hm12 : u1 ≤ u2)
    (hbr : c.ebitda ≤ 0 ∨ s * cs.std_ev_ebitda < cs.median_ev_ebitda) :
    scenarioEV c cs w u1 ≤ scenarioEV c cs w u2 := by
  have hadjR : adj_multiple cs.median_ev_revenue cs.std_ev_revenue u1 ≤
      adj_multiple cs.median_ev_revenue cs.std_ev_revenue u2 := by
    unfold adj_multiple
    exact max_le_max (add_le_add_left (mul_le_mul_of_nonneg_right hm12 hsr) _)
      (le_refl 0)
  have hevR := tmr_mono c.revenue_ttm hadjR
  have hevG := ga_mono c.revenue_ttm c.growth_rate cs.median_growth_rate
    GROWTH_ADJUSTMENT_FACTOR hadjR
  unfold scenarioEV
  dsimp only
  rcases hbr with hEb | hbr
  · rw [tme_of_ebitda_nonpos hEb, tme_of_ebitda_nonpos hEb]
    exact blended_mono_ebitda_zero hw1 hw2 hw3 hevR hevG
  · by_cases hEb : c.ebitda ≤ 0
    · rw [tme_of_ebitda_nonpos hEb, tme_of_ebitda_nonpos hEb]
      exact blended_mono_ebitda_zero hw1 hw2 hw3 hevR hevG
    · push_neg at hEb
      have hstep : -(s * cs.std_ev_ebitda) ≤ u1 * cs.std_ev_ebitda := by
        have := mul_le_mul_of_nonneg_right hm1 hse
        linarith
      have hA1 : 0 < cs.median_ev_ebitda + u1 * cs.std_ev_ebitda := by linarith
      have hadjE1pos : 0 < adj_multiple cs.median_ev_ebitda cs.std_ev_ebitda u1 :=
        lt_of_lt_of_le hA1 (le_max_left _ 0)
      have hadjE : adj_multiple cs.median_ev_ebitda cs.std_ev_ebitda u1 ≤
          adj_multiple cs.median_ev_ebitda cs.std_ev_ebitda u2 := by
        unfold adj_multiple
        exact max_le_max (add_le_add_left (mul_le_mul_of_nonneg_right hm12 hse) _)
          (le_refl 0)
      exact blended_mono_ebitda_pos hw1 hw2 hw3 (tme_pos hEb hadjE1pos) hevR
        (tme_mono c.ebitda hadjE) hevG

/-- C2 counterexample: a concrete company (revenue 100, EBITDA 10, growth 0)
and comp set (EV/Revenue multiples all 10 with standard deviation 0;
EV/EBITDA multiples 1, 1, 1, 5 with median 1 and sample standard deviation
2) on which, at the non-negative multiplier 1 and the default weights, the
downside scenario EV (9800/9 = 1088.9) exceeds the base EV (604) and
ev_range = upside - downside = -4292/9 < 0: the downside EBITDA median
1 - 2 = -1 floors to 0, the EBITDA method flips to unusable and the
redistribution branch over-weights the remaining methods. -/
theorem c2_sensitivity_not_monotone_cex :
    IsSampleStdev [10, 10, 10, 10] 0 ∧
    IsSampleStdev [1, 1, 1, 5] 2 ∧
    posVals (fun r => r.ev_revenue) cexRows = [10, 10, 10, 10] ∧
    posVals (fun r => r.ev_ebitda) cexRows = [1, 1, 1, 5] ∧
    (0 : ℚ) ≤ 1 ∧
    (sensitivity_analysis cexCompany cexRows 0 2 1 DEFAULT_WEIGHTS).base = 604 ∧
    (sensitivity_analysis cexCompany cexRows 0 2 1 DEFAULT_WEIGHTS).downside = 9800 / 9 ∧
    (sensitivity_analysis cexCompany cexRows 0 2 1 DEFAULT_WEIGHTS).base <
      (sensitivity_analysis cexCompany cexRows 0 2 1 DEFAULT_WEIGHTS).downside ∧
    (sensitivity_analysis cexCompany cexRows 0 2 1 DEFAULT_WEIGHTS).ev_range < 0 := by
  refine ⟨?_, ?_, ?_, ?_, by norm_num, ?_, ?_, ?_, ?_⟩
  · unfold IsSampleStdev sampleVariance mean
    norm_num
  · unfold IsSampleStdev sampleVariance mean
    norm_num
  · norm_num [posVals, cexRows, List.filterMap, List.filter]
  · norm_num [posVals, cexRows, List.filterMap, List.filter]
  all_goals
    norm_num [sensitivity_analysis, scenarioEV, adj_multiple, compute_comp_summary,
      posVals, growthVals, median, mean, pyMin, pyMax,
      List.insertionSort, List.orderedInsert, List.filterMap, List.filter,
      trading_multiple_ev_revenue, trading_multiple_ev_ebitda, growth_adjusted_ev,
      GROWTH_ADJUSTMENT_FACTOR, blended_enterprise_value, DEFAULT_WEIGHTS,
      cexCompany, cexRows]

/-- C2 amended: for every company, comp set and non-negative
standard-deviation multiplier, with non-negative weights and non-negative
standard-deviation inputs, sensitivity_analysis satisfies
upside EV >= base EV >= downside EV and ev_range >= 0, provided the EBITDA
method does not flip between usable and unusable across the scenarios:
either the company EBITDA is non-positive, or the EBITDA median exceeds
std_devs times the EBITDA standard deviation. -/
theorem c2_sensitivity_monotone_amended (c : Company) (rows : List CompRow)
    (sRev sEbit std_devs : ℚ) (w : Weights)
    (hs : 0 ≤ std_devs) (hsr : 0 ≤ sRev) (hse : 0 ≤ sEbit)
    (hw1 : 0 ≤ w.ev_revenue) (hw2 : 0 ≤ w.ev_ebitda) (hw3 : 0 ≤ w.growth_adjusted)
    (hbr : c.ebitda ≤ 0 ∨
      std_devs * (compute_comp_summary rows sRev sEbit).std_ev_ebitda <
        (compute_comp_summary rows sRev sEbit).median_ev_ebitda) :
    (sensitivity_analysis c rows sRev sEbit std_devs w).downside ≤
      (sensitivity_analysis c rows sRev sEbit std_devs w).base ∧
    (sensitivity_analysis c rows sRev sEbit std_devs w).base ≤
      (sensitivity_analysis c rows sRev sEbit std_devs w).upside ∧
    0 ≤ (sensitivity_analysis c rows sRev sEbit std_devs w).ev_range := by
  have hsr2 := summary_std_rev_nonneg rows sEbit hsr
  have hse2 := summary_std_ebit_nonneg rows sRev hse
  have h1 : scenarioEV c (compute_comp_summary rows sRev sEbit) w (-std_devs) ≤
      scenarioEV c (compute_comp_summary rows sRev sEbit) w 0 :=
    scenarioEV_mono c _ w hw1 hw2 hw3 hsr2 hse2 (le_refl (-std_devs))
      (by linarith) hbr
  have h2 : scenarioEV c (compute_comp_summary rows sRev sEbit) w 0 ≤
      scenarioEV c (compute_comp_summary rows sRev sEbit) w std_devs :=
    scenarioEV_mono c _ w hw1 hw2 hw3 hsr2 hse2 (by linarith) hs hbr
  unfold sensitivity_analysis
  dsimp only
  exact ⟨h1, h2, by linarith⟩

/-- Witness for C2 (amended): the negative-EBITDA company with the sample
comp rows, multiplier 1 and default weights. -/
theorem c2_sensitivity_monotone_amended_witness :
    (sensitivity_analysis cexCompanyNegEbitda flatRows 2 0 1 DEFAULT_WEIGHTS).downside ≤
      (sensitivity_analysis cexCompanyNegEbitda flatRows 2 0 1 DEFAULT_WEIGHTS).base ∧
    (sensitivity_analysis cexCompanyNegEbitda flatRows 2 0 1 DEFAULT_WEIGHTS).base ≤
      (sensitivity_analysis cexCompanyNegEbitda flatRows 2 0 1 DEFAULT_WEIGHTS).upside ∧
    0 ≤ (sensitivity_analysis cexCompanyNegEbitda flatRows 2 0 1 DEFAULT_WEIGHTS).ev_range :=
  c2_sensitivity_monotone_amended cexCompanyNegEbitda flatRows 2 0 1 DEFAULT_WEIGHTS
    (by norm_num) (by norm_num) (by norm_num)
    (by norm_num [DEFAULT_WEIGHTS]) (by norm_num [DEFAULT_WEIGHTS])
    (by norm_num [DEFAULT_WEIGHTS])
    (Or.inl (by norm_num [cexCompanyNegEbitda]))


/-! ## Claim theorems: HoldCo NAV (C4) -/

/-- C4 counterexample: a first NAV snapshot whose NAV is exactly 0 (no
valued companies, cash 5, debt 5); the second snapshot computed after it
has a null change_vs_prior_pct, because pct_change is null on a zero
baseline, contradicting the claim that a second snapshot always has a
non-null change. -/
theorem c4_nav_second_snapshot_null_cex :
    (calculate_holdco_nav [none] 5 5 1 none).nav = 0 ∧
    (calculate_holdco_nav [none] 5 5 1
      (some (snapshotOf (calculate_holdco_nav [none] 5 5 1 none)))).change_vs_prior_pct
      = none := by
  constructor <;>
    norm_num [calculate_holdco_nav, totalEquity, safe_divide, pct_change, snapshotOf]

/-- C4 amended: calculate_holdco_nav returns
nav = total_equity_value + holdco_cash - holdco_debt exactly, with
total_equity_value the sum of the latest persisted holdco_equity_value of
each company (0 when none); nav_per_share = nav / shares_outstanding with a
zero denominator resolved to the default 0.0; change_vs_prior_pct is null
when no prior HoldCo snapshot exists; and a second snapshot computed after
a first one has a non-null change_vs_prior_pct provided the first
snapshot has a nonzero NAV. -/
theorem c4_nav_spec_amended :
    (∀ (latest : List (Option LatestVal)) (cash debt shares : ℚ)
        (prior : Option HoldcoSnapshot),
      (calculate_holdco_nav latest cash debt shares prior).nav =
        (calculate_holdco_nav latest cash debt shares prior).total_equity_value
          + cash - debt ∧
      (calculate_holdco_nav latest cash debt shares prior).total_equity_value =
        totalEquity latest ∧
      (calculate_holdco_nav latest cash debt shares prior).nav_per_share =
        (if shares = 0 then 0
         else (calculate_holdco_nav latest cash debt shares prior).nav / shares) ∧
      (prior = none →
        (calculate_holdco_nav latest cash debt shares prior).change_vs_prior_pct
          = none) ∧
      (∀ p : HoldcoSnapshot, prior = some p → p.nav ≠ 0 →
        (calculate_holdco_nav latest cash debt shares prior).change_vs_prior_pct
          ≠ none)) ∧
    (∀ (l1 l2 : List (Option LatestVal)) (c1 d1 s1 c2 d2 s2 : ℚ),
      (calculate_holdco_nav l1 c1 d1 s1 none).nav ≠ 0 →
      (calculate_holdco_nav l2 c2 d2 s2
        (some (snapshotOf (calculate_holdco_nav l1 c1 d1 s1 none)))).change_vs_prior_pct
        ≠ none) := by
  have key : ∀ (latest : List (Option LatestVal)) (cash debt shares : ℚ)
      (p : HoldcoSnapshot), p.nav ≠ 0 →
      (calculate_holdco_nav latest cash debt shares (some p)).change_vs_prior_pct
        ≠ none := by
    intro latest cash debt shares p hp
    unfold calculate_holdco_nav pct_change
    dsimp only
    rw [if_neg hp]
    exact Option.some_ne_none _
  constructor
  · intro latest cash debt shares prior
    refine ⟨rfl, rfl, rfl, ?_, ?_⟩
    · rintro rfl
      rfl
    · rintro p rfl hp
      exact key latest cash debt shares p hp
  · intro l1 l2 c1 d1 s1 c2 d2 s2 h1
    exact key l2 c2 d2 s2 _ h1

/-- Witness for C4 (amended): a one-company portfolio with equity 10, cash
5, debt 2, 4 shares and a prior snapshot of NAV 13. -/
theorem c4_nav_spec_amended_witness :
    (calculate_holdco_nav [some ⟨20, 10⟩] 5 2 4 (some ⟨13⟩)).change_vs_prior_pct
      ≠ none ∧
    (calculate_holdco_nav [some ⟨20, 10⟩] 5 2 4 none).change_vs_prior_pct = none := by
  constructor
  · exact (c4_nav_spec_amended.1 [some ⟨20, 10⟩] 5 2 4 (some ⟨13⟩)).2.2.2.2 ⟨13⟩ rfl
      (by norm_num)
  · exact (c4_nav_spec_amended.1 [some ⟨20, 10⟩] 5 2 4 none).2.2.2.1 rfl

/-! ## Claim theorems: concentration analysis (C8) -/

/-- The concentration entries before sorting, written as a single map. -/
theorem conc_eq (latest : List (ℕ × Option ℚ)) :
    get_concentration_analysis latest =
      List.insertionSort concDesc (latest.map (fun p =>
        ConcEntry.mk p.1 (p.2.getD 0)
          (if 0 < (latest.map (fun q => q.2.getD 0)).sum then
            safe_divide (p.2.getD 0) ((latest.map (fun q => q.2.getD 0)).sum) 0
          else 0))) := by
  simp only [get_concentration_analysis, List.map_map]
  rfl

/-- C8: get_concentration_analysis returns one entry per company, sorted
descending by weight_pct; when the total portfolio equity is positive each
entry's weight_pct is its holdco_equity_value divided by the total and the
weights sum to exactly 1; when the total is 0 every weight_pct is 0. -/
theorem c8_concentration_spec (latest : List (ℕ × Option ℚ)) :
    (get_concentration_analysis latest).length = latest.length ∧
    List.Sorted concDesc (get_concentration_analysis latest) ∧
    (0 < (latest.map (fun p => p.2.getD 0)).sum →
      ((get_concentration_analysis latest).map (fun e => e.weight_pct)).sum = 1) ∧
    ((latest.map (fun p => p.2.getD 0)).sum = 0 →
      ∀ e ∈ get_concentration_analysis latest, e.weight_pct = 0) ∧
    (∀ e ∈ get_concentration_analysis latest,
      0 < (latest.map (fun p => p.2.getD 0)).sum →
      e.weight_pct = e.holdco_equity_value / (latest.map (fun p => p.2.getD 0)).sum) := by
  refine ⟨?_, ?_, ?_, ?_, ?_⟩
  · rw [conc_eq, List.length_insertionSort, List.length_map]
  · rw [conc_eq]
    exact List.sorted_insertionSort concDesc _
  · intro hTpos
    rw [conc_eq]
    have hperm := (List.perm_insertionSort concDesc (latest.map (fun p =>
      ConcEntry.mk p.1 (p.2.getD 0)
        (if 0 < (latest.map (fun q => q.2.getD 0)).sum then
          safe_divide (p.2.getD 0) ((latest.map (fun q => q.2.getD 0)).sum) 0
        else 0)))).map (fun e => e.weight_pct)
    rw [hperm.sum_eq, List.map_map]
    have hne : (latest.map (fun q => q.2.getD 0)).sum ≠ 0 := ne_of_gt hTpos
    simp only [Function.comp_def, if_pos hTpos, safe_divide, if_neg hne,
      div_eq_mul_inv]
    rw [List.sum_map_mul_right]
    exact mul_inv_cancel₀ hne
  · intro hT0 e he
    rw [conc_eq, List.mem_insertionSort] at he
    obtain ⟨p, _hp, rfl⟩ := List.mem_map.1 he
    simp [hT0]
  · intro e he hTpos
    rw [conc_eq, List.mem_insertionSort] at he
    obtain ⟨p, _hp, rfl⟩ := List.mem_map.1 he
    dsimp only
    rw [if_pos hTpos, safe_divide, if_neg (ne_of_gt hTpos)]

/-- Witness for C8: three companies with equities 30, 0 (no valuation) and
10; the weights sum to exactly 1. -/
theorem c8_concentration_spec_witness :
    ((get_concentration_analysis [(1, some 30), (2, none), (3, some 10)]).map
      (fun e => e.weight_pct)).sum = 1 :=
  (c8_concentration_spec [(1, some 30), (2, none), (3, some 10)]).2.2.1 (by norm_num)

/-! ## Claim theorems: comp summary statistics (C5) -/

theorem foldl_min_le (xs : List ℚ) (a : ℚ) :
    xs.foldl min a ≤ a ∧ ∀ y ∈ xs, xs.foldl min a ≤ y := by
  induction xs generalizing a with
  | nil => simp
  | cons x t ih =>
    refine ⟨le_trans (ih (min a x)).1 (min_le_left a x), ?_⟩
    intro y hy
    rcases List.mem_cons.1 hy with rfl | hy
    · exact le_trans (ih (min a y)).1 (min_le_right a y)
    · exact (ih (min a x)).2 y hy

theorem le_foldl_max (xs : List ℚ) (a : ℚ) :
    a ≤ xs.foldl max a ∧ ∀ y ∈ xs, y ≤ xs.foldl max a := by
  induction xs generalizing a with
  | nil => simp
  | cons x t ih =>
    refine ⟨le_trans (le_max_left a x) (ih (max a x)).1, ?_⟩
    intro y hy
    rcases List.mem_cons.1 hy with rfl | hy
    · exact le_trans (le_max_right a y) (ih (max a y)).1
    · exact (ih (max a x)).2 y hy

theorem pyMin_le {xs : List ℚ} {y : ℚ} (h : y ∈ xs) : pyMin xs ≤ y := by
  cases xs with
  | nil => cases h
  | cons x t =>
    rcases List.mem_cons.1 h with rfl | hy
    · exact (foldl_min_le t y).1
    · exact (foldl_min_le t x).2 y hy

theorem le_pyMax {xs : List ℚ} {y : ℚ} (h : y ∈ xs) : y ≤ pyMax xs := by
  cases xs with
  | nil => cases h
  | cons x t =>
    rcases List.mem_cons.1 h with rfl | hy
    · exact (le_foldl_max t y).1
    · exact (le_foldl_max t x).2 y hy

/-- The Python median of a non-empty list lies between its min and its max. -/
theorem median_bounds {xs : List ℚ} (h : xs ≠ []) :
    pyMin xs ≤ median xs ∧ median xs ≤ pyMax xs := by
  have hlen : 0 < xs.length := List.length_pos.2 h
  have hslen : (List.insertionSort (fun a b : ℚ => a ≤ b) xs).length = xs.length :=
    (List.perm_insertionSort _ xs).length_eq
  have hmem : ∀ i : ℕ, i < xs.length →
      pyMin xs ≤ (List.insertionSort (fun a b : ℚ => a ≤ b) xs).getD i 0 ∧
      (List.insertionSort (fun a b : ℚ => a ≤ b) xs).getD i 0 ≤ pyMax xs := by
    intro i hi
    have hi2 : i < (List.insertionSort (fun a b : ℚ => a ≤ b) xs).length := by
      rw [hslen]
      exact hi
    rw [List.getD_eq_getElem _ _ hi2]
    have hm : (List.insertionSort (fun a b : ℚ => a ≤ b) xs)[i] ∈ xs :=
      (List.mem_insertionSort _).1 (List.getElem_mem hi2)
    exact ⟨pyMin_le hm, le_pyMax hm⟩
  unfold median
  dsimp only
  rw [if_neg (Nat.pos_iff_ne_zero.1 hlen)]
  by_cases hodd : xs.length % 2 = 1
  · rw [if_pos hodd]
    exact hmem _ (Nat.div_lt_self hlen (by norm_num))
  · rw [if_neg hodd]
    have hi1 : xs.length / 2 - 1 < xs.length :=
      lt_of_le_of_lt (Nat.sub_le _ 1) (Nat.div_lt_self hlen (by norm_num))
    have hi2 : xs.length / 2 < xs.length := Nat.div_lt_self hlen (by norm_num)
    have ha := hmem _ hi1
    have hb := hmem _ hi2
    constructor
    · have h1 := ha.1
      have h2 := hb.1
      linarith
    · have h1 := ha.2
      have h2 := hb.2
      linarith

/-- C5: for each of the EV/Revenue and EV/EBITDA multiples the statistics
are computed over the non-null strictly positive observation values
(the posVals filter); with at least one qualifying value the median lies
between the reported low and high inclusive; the standard deviation is the
N-1 sample standard deviation when there are at least two qualifying
values and 0.0 otherwise; with zero qualifying values all five statistics
are 0.0; and the summary is total (never an error). -/
theorem c5_comp_summary_spec (rows : List CompRow) (sRev sEbit : ℚ) :
    (posVals (fun r => r.ev_revenue) rows ≠ [] →
      (compute_comp_summary rows sRev sEbit).low_ev_revenue ≤
        (compute_comp_summary rows sRev sEbit).median_ev_revenue ∧
      (compute_comp_summary rows sRev sEbit).median_ev_revenue ≤
        (compute_comp_summary rows sRev sEbit).high_ev_revenue) ∧
    (2 ≤ (posVals (fun r => r.ev_revenue) rows).length →
      IsSampleStdev (posVals (fun r => r.ev_revenue) rows) sRev →
      IsSampleStdev (posVals (fun r => r.ev_revenue) rows)
        (compute_comp_summary rows sRev sEbit).std_ev_revenue) ∧
    ((posVals (fun r => r.ev_revenue) rows).length < 2 →
      (compute_comp_summary rows sRev sEbit).std_ev_revenue = 0) ∧
    (posVals (fun r => r.ev_revenue) rows = [] →
      (compute_comp_summary rows sRev sEbit).median_ev_revenue = 0 ∧
      (compute_comp_summary rows sRev sEbit).mean_ev_revenue = 0 ∧
      (compute_comp_summary rows sRev sEbit).high_ev_revenue = 0 ∧
      (compute_comp_summary rows sRev sEbit).low_ev_revenue = 0 ∧
      (compute_comp_summary rows sRev sEbit).std_ev_revenue = 0) ∧
    (posVals (fun r => r.ev_ebitda) rows ≠ [] →
      (compute_comp_summary rows sRev sEbit).low_ev_ebitda ≤
        (compute_comp_summary rows sRev sEbit).median_ev_ebitda ∧
      (compute_comp_summary rows sRev sEbit).median_ev_ebitda ≤
        (compute_comp_summary rows sRev sEbit).high_ev_ebitda) ∧
    (2 ≤ (posVals (fun r => r.ev_ebitda) rows).length →
      IsSampleStdev (posVals (fun r => r.ev_ebitda) rows) sEbit →
      IsSampleStdev (posVals (fun r => r.ev_ebitda) rows)
        (compute_comp_summary rows sRev sEbit).std_ev_ebitda) ∧
    ((posVals (fun r => r.ev_ebitda) rows).length < 2 →
      (compute_comp_summary rows sRev sEbit).std_ev_ebitda = 0) ∧
    (posVals (fun r => r.ev_ebitda) rows = [] →
      (compute_comp_summary rows sRev sEbit).median_ev_ebitda = 0 ∧
      (compute_comp_summary rows sRev sEbit).mean_ev_ebitda = 0 ∧
      (compute_comp_summary rows sRev sEbit).high_ev_ebitda = 0 ∧
      (compute_comp_summary rows sRev sEbit).low_ev_ebitda = 0 ∧
      (compute_comp_summary rows sRev sEbit).std_ev_ebitda = 0) := by
  refine ⟨fun h => ?_, fun h2 hstd => ?_, fun h1 => ?_, fun h0 => ?_,
    fun h => ?_, fun h2 hstd => ?_, fun h1 => ?_, fun h0 => ?_⟩
  · simp only [compute_comp_summary, List.isEmpty_eq_false.2 h, Bool.false_eq_true,
      if_false]
    exact ⟨(median_bounds h).1, (median_bounds h).2⟩
  · have hne : posVals (fun r => r.ev_revenue) rows ≠ [] := by
      intro hh
      rw [hh] at h2
      simp at h2
    simp only [compute_comp_summary, List.isEmpty_eq_false.2 hne, Bool.false_eq_true,
      if_false,
      if_pos (by omega : 1 < (posVals (fun r => r.ev_revenue) rows).length)]
    exact hstd
  · rcases Nat.eq_zero_or_pos (posVals (fun r => r.ev_revenue) rows).length with hz | hp
    · have hnil := List.length_eq_zero.1 hz
      simp [compute_comp_summary, hnil]
    · have hne : posVals (fun r => r.ev_revenue) rows ≠ [] :=
        List.length_pos.1 hp
      simp only [compute_comp_summary, List.isEmpty_eq_false.2 hne, Bool.false_eq_true,
        if_false,
        if_neg (by omega : ¬ 1 < (posVals (fun r => r.ev_revenue) rows).length)]
  · simp [compute_comp_summary, h0]
  · simp only [compute_comp_summary, List.isEmpty_eq_false.2 h, Bool.false_eq_true,
      if_false]
    exact ⟨(median_bounds h).1, (median_bounds h).2⟩
  · have hne : posVals (fun r => r.ev_ebitda) rows ≠ [] := by
      intro hh
      rw [hh] at h2
      simp at h2
    simp only [compute_comp_summary, List.isEmpty_eq_false.2 hne, Bool.false_eq_true,
      if_false,
      if_pos (by omega : 1 < (posVals (fun r => r.ev_ebitda) rows).length)]
    exact hstd
  · rcases Nat.eq_zero_or_pos (posVals (fun r => r.ev_ebitda) rows).length with hz | hp
    · have hnil := List.length_eq_zero.1 hz
      simp [compute_comp_summary, hnil]
    · have hne : posVals (fun r => r.ev_ebitda) rows ≠ [] :=
        List.length_pos.1 hp
      simp only [compute_comp_summary, List.isEmpty_eq_false.2 hne, Bool.false_eq_true,
        if_false,
        if_neg (by omega : ¬ 1 < (posVals (fun r => r.ev_ebitda) rows).length)]
  · simp [compute_comp_summary, h0]

/-- Witness for C5: the sample comp rows with EV/Revenue values 10, 12, 14
(sample standard deviation 2) and EV/EBITDA values 4, 4 (standard
deviation 0). -/
theorem c5_comp_summary_spec_witness :
    ((compute_comp_summary flatRows 2 0).low_ev_revenue ≤
      (compute_comp_summary flatRows 2 0).median_ev_revenue ∧
     (compute_comp_summary flatRows 2 0).median_ev_revenue ≤
      (compute_comp_summary flatRows 2 0).high_ev_revenue) ∧
    IsSampleStdev (posVals (fun r => r.ev_revenue) flatRows)
      (compute_comp_summary flatRows 2 0).std_ev_revenue ∧
    IsSampleStdev (posVals (fun r => r.ev_ebitda) flatRows)
      (compute_comp_summary flatRows 2 0).std_ev_ebitda := by
  have hrev : posVals (fun r => r.ev_revenue) flatRows = [10, 12, 14] := by
    norm_num [posVals, flatRows, List.filterMap, List.filter]
  have hebit : posVals (fun r => r.ev_ebitda) flatRows = [4, 4] := by
    norm_num [posVals, flatRows, List.filterMap, List.filter]
  refine ⟨(c5_comp_summary_spec flatRows 2 0).1 (by rw [hrev]; simp),
    (c5_comp_summary_spec flatRows 2 0).2.1 (by rw [hrev]; norm_num) ?_,
    (c5_comp_summary_spec flatRows 2 0).2.2.2.2.2.1 (by rw [hebit]; norm_num) ?_⟩
  · rw [hrev]
    unfold IsSampleStdev sampleVariance mean
    norm_num
  · rw [hebit]
    unfold IsSampleStdev sampleVariance mean
    norm_num

/-! ## Claim theorems: single and batch valuation error handling (C9) -/

theorem get_company_update_ne (db : DB) (cid cid2 : ℕ) (ev eq2 : ℚ)
    (h : cid2 ≠ cid) :
    get_company (update_last_mark db cid ev eq2) cid2 = get_company db cid2 := by
  unfold get_company update_last_mark
  dsimp only
  rw [List.find?_map]
  have hcomp : (fun c : Company => c.id == cid2) ∘ (fun c : Company =>
      if c.id == cid then
        { c with last_mark_ev := some ev, last_mark_equity := some eq2 }
      else c) = fun c : Company => c.id == cid2 := by
    funext c
    by_cases hc : c.id == cid
    · simp [Function.comp, hc]
    · simp [Function.comp, hc]
  rw [hcomp]
  cases hf : db.companies.find? (fun c => c.id == cid2) with
  | none => rfl
  | some a =>
    have ha := List.find?_some hf
    have haid : a.id = cid2 := by simpa using ha
    have hfalse : (a.id == cid) = false := by simp [haid, h]
    simp [hfalse]
    intro hx
    exact absurd (haid.symm.trans hx) h

theorem run_valuation_update_ne (db : DB) (cid cid2 : ℕ) (ev eq2 sRev sEbit : ℚ)
    (w : Weights) (h : cid2 ≠ cid) :
    run_valuation (update_last_mark db cid ev eq2) cid2 sRev sEbit w =
      run_valuation db cid2 sRev sEbit w := by
  unfold run_valuation
  rw [get_company_update_ne db cid cid2 ev eq2 h]
  rfl

theorem run_all_aux_length (sRev sEbit : ℚ) (w : Weights) :
    ∀ (cs : List Company) (db : DB),
      (run_all_valuations_aux sRev sEbit w db cs).length = cs.length := by
  intro cs
  induction cs with
  | nil =>
    intro db
    rfl
  | cons c rest ih =>
    intro db
    unfold run_all_valuations_aux
    cases hrv : run_valuation db c.id sRev sEbit w with
    | ok r => simp [ih]
    | error e => simp [ih]

theorem run_all_aux_eq (sRev sEbit : ℚ) (w : Weights) :
    ∀ (cs : List Company) (db db0 : DB),
      (∀ c ∈ cs, run_valuation db c.id sRev sEbit w =
        run_valuation db0 c.id sRev sEbit w) →
      (cs.map (fun c => c.id)).Nodup →
      run_all_valuations_aux sRev sEbit w db cs =
        cs.map (batchEntryOf db0 sRev sEbit w) := by
  intro cs
  induction cs with
  | nil =>
    intro db db0 _ _
    rfl
  | cons c rest ih =>
    intro db db0 hagree hnd
    have hc := hagree c (List.mem_cons_self c rest)
    have hndrest : (rest.map (fun c => c.id)).Nodup := (List.nodup_cons.1 hnd).2
    have hcid : c.id ∉ rest.map (fun c => c.id) := (List.nodup_cons.1 hnd).1
    unfold run_all_valuations_aux
    rw [hc]
    cases hrv : run_valuation db0 c.id sRev sEbit w with
    | ok r =>
      simp only [List.map_cons, batchEntryOf, hrv]
      congr 1
      apply ih
      · intro c2 hc2
        have hne : c2.id ≠ c.id := by
          intro heq
          exact hcid (heq ▸ List.mem_map_of_mem (fun c => c.id) hc2)
        rw [run_valuation_update_ne db c.id c2.id _ _ sRev sEbit w hne]
        exact hagree c2 (List.mem_cons_of_mem c hc2)
      · exact hndrest
    | error e =>
      simp only [List.map_cons, batchEntryOf, hrv]
      congr 1
      exact ih db db0 (fun c2 hc2 => hagree c2 (List.mem_cons_of_mem c hc2)) hndrest

/-- C9: run_valuation returns the not-found error exactly when the company
id does not resolve, and is otherwise total (an ok result for every
resolved company, degenerate numerics included); run_all_valuations
produces one entry per tracked company, never aborting, each failing
company contributing an error marker carrying its id, name and message,
and (for distinct company ids) each company's entry is exactly the entry
its own single-company valuation on the pre-batch database would produce,
unaffected by the other companies' last-mark updates during the batch. -/
theorem c9_batch_error_isolation :
    (∀ (db : DB) (cid : ℕ) (sRev sEbit : ℚ) (w : Weights),
      run_valuation db cid sRev sEbit w =
        Except.error ("Company " ++ toString cid ++ " not found") ↔
      get_company db cid = none) ∧
    (∀ (db : DB) (cid : ℕ) (sRev sEbit : ℚ) (w : Weights) (c : Company),
      get_company db cid = some c →
      run_valuation db cid sRev sEbit w =
        Except.ok (valuation_core c (get_latest_comp_data db cid) sRev sEbit w)) ∧
    (∀ (db : DB) (sRev sEbit : ℚ) (w : Weights),
      (run_all_valuations db sRev sEbit w).length = db.companies.length) ∧
    (∀ (db : DB) (sRev sEbit : ℚ) (w : Weights),
      (db.companies.map (fun c => c.id)).Nodup →
      run_all_valuations db sRev sEbit w =
        db.companies.map (batchEntryOf db sRev sEbit w)) := by
  refine ⟨fun db cid sRev sEbit w => ?_, fun db cid sRev sEbit w c hg => ?_,
    fun db sRev sEbit w => run_all_aux_length sRev sEbit w db.companies db,
    fun db sRev sEbit w hnd => ?_⟩
  · unfold run_valuation
    cases hg : get_company db cid with
    | none => simp
    | some c => simp
  · unfold run_valuation
    rw [hg]
  · exact run_all_aux_eq sRev sEbit w db.companies db db
      (fun c _ => rfl) hnd

/-- Witness for C9: the two-company sample database (distinct ids 1 and 2):
the batch result is entry-by-entry the single-company result on the
original database. -/
theorem c9_batch_error_isolation_witness :
    run_all_valuations sampleDB 0 0 DEFAULT_WEIGHTS =
      sampleDB.companies.map (batchEntryOf sampleDB 0 0 DEFAULT_WEIGHTS) :=
  c9_batch_error_isolation.2.2.2 sampleDB 0 0 DEFAULT_WEIGHTS
    (by simp [sampleDB, cexCompany, cexCompanyNegEbitda])

end PVA
